import Mathlib

/-!
Verification development for the feed-check engine of an RSS keyword
notification bot (sources: `src/config.py`, `src/database.py`,
`src/rss_parser.py`, `src/scheduler.py`).

The Python code is shallowly embedded: pure fragments become Lean
functions, the SQLAlchemy-backed store becomes an explicit `DBState`
record threaded through the operations, and the external collaborators
(SHA-256 hex digest, the `re` regex engine, BeautifulSoup HTML cleaning,
the Telegram transport) are parameters of the functions that call them.
Python string primitives are embedded as structurally recursive
functions on `List Char` (code points), matching Python's code-point
slicing semantics, so that all definitions evaluate by kernel reduction.
-/

/-- Embedding of Python `str.lower()` (per-character lowercasing; the
inputs of interest are ASCII). -/
def pyLower (s : String) : String := String.mk (s.toList.map Char.toLower)

/-- Embedding of Python's substring test `pat in hay` on lists of
characters: some suffix of `hay` starts with `pat`. -/
def containsSub (hay pat : List Char) : Bool :=
  match hay with
  | [] => pat.isEmpty
  | _ :: t => pat.isPrefixOf hay || containsSub t pat

/-- Embedding of Python's substring test `pat in hay` on strings. -/
def strContains (hay pat : String) : Bool :=
  containsSub hay.toList pat.toList

/-- Embedding of Python `s.startswith(pre)`. -/
def pyStartsWith (s pre : String) : Bool :=
  pre.toList.isPrefixOf s.toList

/-- Embedding of Python code-point slicing `s[n:]`. -/
def pyDrop (s : String) (n : Nat) : String := String.mk (s.toList.drop n)

/-- Embedding of Python code-point slicing `s[:n]`. -/
def pyTake (s : String) (n : Nat) : String := String.mk (s.toList.take n)

/-- Characters removed by Python `str.strip()` with no argument. -/
def pyIsSpace (c : Char) : Bool :=
  c = ' ' || c = '\t' || c = '\n' || c = '\r' || c = '\x0b' || c = '\x0c'

/-- Embedding of Python `s.strip()`. -/
def pyTrim (s : String) : String :=
  String.mk (((s.toList.dropWhile pyIsSpace).reverse.dropWhile pyIsSpace).reverse)

/-- Helper for `pySplit`: splits `l` on every non-overlapping occurrence
of the non-empty separator `sep`, scanning left to right. `acc` holds the
current chunk reversed; `fuel` is an upper bound on the number of steps
(one step consumes at least one character, so `l.length + 1` suffices)
kept only to make the recursion structural. -/
def splitChunks (sep : List Char) : Nat → List Char → List Char → List (List Char)
  | 0, rest, acc => [acc.reverse ++ rest]
  | _ + 1, [], acc => [acc.reverse]
  | fuel + 1, h :: t, acc =>
    if !sep.isEmpty && sep.isPrefixOf (h :: t) then
      acc.reverse :: splitChunks sep fuel ((h :: t).drop sep.length) []
    else
      splitChunks sep fuel t (h :: acc)

/-- Embedding of Python `s.split(sep)` for a non-empty separator. -/
def pySplit (s sep : String) : List String :=
  (splitChunks sep.toList (s.toList.length + 1) s.toList []).map String.mk

/-- Embedding of Python `sep.join(parts)`. -/
def pyJoin (sep : String) : List String → String
  | [] => ""
  | [x] => x
  | x :: xs => x ++ sep ++ pyJoin sep xs

/-- Embedding of Python `s.replace(old, new)` for a non-empty `old`
(replaces every non-overlapping occurrence left to right). -/
def pyReplace (s old new : String) : String :=
  pyJoin new (pySplit s old)

/-- Embedding of Python `x or default` on an optional string field, as in
`feed.title or 'Unknown'`: `None` and the empty string are both falsy. -/
def pyOrElse (s : Option String) (d : String) : String :=
  match s with
  | some t => if t = "" then d else t
  | none => d

/-- Outcome of one call into the external regex engine
(`re.search(pattern, text, re.IGNORECASE)` in `scheduler.py`): either a
boolean "found a match" or a raised exception (`re.error` on a bad
pattern, or any evaluation failure). -/
inductive RegexResult
  | ok (b : Bool)
  | error
  deriving DecidableEq

/-- Type of the external regex collaborator: pattern and text to search. -/
abbrev RegexSearch := String → String → RegexResult

/-- Embedding of the `Keyword` model of `database.py` (fields used by the
core: `feed_id` nullable foreign key, `keyword` pattern string,
`keyword_type` string with column default `"normal"`, `is_active` with
column default `True`). -/
structure Keyword where
  feed_id : Option Nat
  keyword : String
  keyword_type : String
  is_active : Bool
  deriving DecidableEq

/-- Embedding of `Database.add_keyword` of `database.py` (lines 179-201):
derives the stored `keyword_type` and stored pattern from the raw input,
first match wins.  Note the source slices `keyword[7:]` after testing the
6-character `"regex:"` case, and `pyDrop _ 7` drops the same 7
characters. The `keyword_type` argument is the caller-supplied default
(`"normal"` at every call site). -/
def add_keyword (keyword : String) (feed_id : Option Nat) (keyword_type : String) : Keyword :=
  if pyStartsWith keyword "regex:" then
    { feed_id := feed_id, keyword := pyDrop keyword 7, keyword_type := "regex", is_active := true }
  else if pyStartsWith keyword "+" then
    { feed_id := feed_id, keyword := pyDrop keyword 1, keyword_type := "and", is_active := true }
  else if pyStartsWith keyword "|" then
    { feed_id := feed_id, keyword := pyDrop keyword 1, keyword_type := "or", is_active := true }
  else if strContains keyword " -" then
    { feed_id := feed_id, keyword := keyword, keyword_type := "not", is_active := true }
  else
    { feed_id := feed_id, keyword := keyword, keyword_type := keyword_type, is_active := true }

/-- Embedding of `RSSChecker._match_keyword` of `scheduler.py` (lines
124-157).  `text` is the lowercased `title ++ " " ++ summary`; the regex
branch hands the raw pattern and `text` to the external engine and the
surrounding `try/except` turns a raised error into `false`; the `not`
branch uses Python `split(" -")` (every occurrence) and only takes the
two-part path when the split has exactly length 2, indexing parts 0 and
1; `and`/`or` split on `+`/`|` and test each trimmed lowercased part;
the default branch is plain substring containment. -/
def matchKeyword (rs : RegexSearch) (title summary : String) (kw : Keyword) : Bool :=
  let text := pyLower (title ++ " " ++ summary)
  let kw_text := pyLower kw.keyword
  if kw.keyword_type = "regex" then
    match rs kw.keyword text with
    | .ok b => b
    | .error => false
  else if kw.keyword_type = "not" then
    let parts := pySplit kw.keyword " -"
    if parts.length = 2 then
      let main_kw := pyLower (pyTrim (parts.getD 0 ""))
      let exclude_kw := pyLower (pyTrim (parts.getD 1 ""))
      strContains text main_kw && !(strContains text exclude_kw)
    else
      strContains text kw_text
  else if kw.keyword_type = "and" then
    (pySplit kw.keyword "+").all (fun part => strContains text (pyLower (pyTrim part)))
  else if kw.keyword_type = "or" then
    (pySplit kw.keyword "|").any (fun part => strContains text (pyLower (pyTrim part)))
  else
    strContains text kw_text

/-- Embedding of the keyword loop of `RSSChecker.check_entry`
(`scheduler.py` lines 109-115): iterate the rules in order, skip inactive
ones, and collect the `keyword` field of every matching rule. -/
def collectMatched (rs : RegexSearch) (title summary : String) : List Keyword → List String
  | [] => []
  | kw :: rest =>
    if !kw.is_active then
      collectMatched rs title summary rest
    else if matchKeyword rs title summary kw then
      kw.keyword :: collectMatched rs title summary rest
    else
      collectMatched rs title summary rest

/-- Embedding of the `Feed` model of `database.py` (fields used by the
core; `created_at`/`updated_at` bookkeeping columns are omitted as no
core logic reads them). Column defaults: `is_active=True`,
`error_count=0`. Timestamps are modelled as abstract `Nat` instants. -/
structure Feed where
  id : Nat
  url : String
  title : Option String
  description : Option String
  is_active : Bool
  error_count : Nat
  last_fetch : Option Nat
  deriving DecidableEq

/-- Embedding of the `SentItem` dedup record of `database.py`:
`item_hash` is the SHA-256 hex digest column (unique index), `sent_at`
the insertion instant used by the age-based purge. -/
structure SentItem where
  item_hash : String
  feed_id : Nat
  title : String
  url : String
  sent_at : Nat
  deriving DecidableEq

/-- Embedding of the persistent store visible to the core: the `feeds`,
`keywords` and `sent_items` tables as lists of rows in insertion order. -/
structure DBState where
  feeds : List Feed
  keywords : List Keyword
  sent_items : List SentItem
  deriving DecidableEq

/-- Embedding of `Database.get_active_feeds`. -/
def get_active_feeds (dbs : DBState) : List Feed :=
  dbs.feeds.filter (fun f => f.is_active)

/-- Embedding of `Database.get_global_keywords` (rows with NULL
`feed_id`). -/
def get_global_keywords (dbs : DBState) : List Keyword :=
  dbs.keywords.filter (fun k => k.feed_id = none)

/-- Embedding of `Database.get_feed_keywords`. -/
def get_feed_keywords (dbs : DBState) (feed_id : Nat) : List Keyword :=
  dbs.keywords.filter (fun k => k.feed_id = some feed_id)

/-- Embedding of the row mutation of `Database.increment_error`
(`database.py` lines 163-175) on one `Feed` row: add 1 to `error_count`
and, when the new count reaches the threshold 10, clear `is_active`. -/
def increment_error (f : Feed) : Feed :=
  let ec := f.error_count + 1
  { f with error_count := ec, is_active := if ec ≥ 10 then false else f.is_active }

/-- Embedding of `Database.increment_error` on the store: mutate the row
selected by the primary key `feed_id` (a missing id mutates nothing). -/
def increment_error_db (dbs : DBState) (feed_id : Nat) : DBState :=
  { dbs with feeds := dbs.feeds.map (fun f => if f.id = feed_id then increment_error f else f) }

/-- Embedding of the row mutation performed by the fetch-success call
`db.update_feed(feed.id, title=..., description=..., last_fetch=...,
error_count=0)` in `RSSChecker.check_feed` (`scheduler.py` lines 76-81):
exactly these four columns are written; `is_active` is not touched. -/
def apply_success (f : Feed) (title description : String) (now : Nat) : Feed :=
  { f with title := some title, description := some description,
           last_fetch := some now, error_count := 0 }

/-- Embedding of the fetch-success `update_feed` call on the store. -/
def update_feed_success (dbs : DBState) (feed_id : Nat) (title description : String)
    (now : Nat) : DBState :=
  { dbs with feeds := dbs.feeds.map (fun f =>
      if f.id = feed_id then apply_success f title description now else f) }

/-- The two store mutations the core applies to a feed row during a
sweep: a fetch failure (`increment_error`) or a fetch success (the
`update_feed` call with title/description/last_fetch/error_count). -/
inductive CoreOp
  | fail
  | succeed (title description : String) (now : Nat)

/-- Applies one core feed mutation to a row. -/
def apply_core_op (f : Feed) : CoreOp → Feed
  | .fail => increment_error f
  | .succeed t d n => apply_success f t d n

/-- Preimage string of the dedup fingerprint: the code hashes
`f"{feed_id}:{url}"` with SHA-256 (in both `RSSChecker.check_entry` and
`Database.mark_sent`); `sha` below abstracts `hashlib.sha256(...)
.hexdigest()`. -/
def hashInput (feed_id : Nat) (url : String) : String :=
  toString feed_id ++ ":" ++ url

/-- Embedding of `Database.is_sent`: is a row with this `item_hash`
present. -/
def is_sent (dbs : DBState) (item_hash : String) : Bool :=
  dbs.sent_items.any (fun it => it.item_hash = item_hash)

/-- Number of dedup rows carrying a given fingerprint. -/
def sentCount (dbs : DBState) (item_hash : String) : Nat :=
  (dbs.sent_items.filter (fun it => it.item_hash = item_hash)).length

/-- Embedding of `Database.mark_sent` (`database.py` lines 254-263):
insert a `SentItem` row with the SHA-256 fingerprint of
`(feed_id, url)`.  The `item_hash` column has a unique index, so a
duplicate insert is rejected by the store (the Python call raises an
integrity error on commit and the row is not persisted); the returned
flag is `true` when the insert was accepted. -/
def mark_sent (sha : String → String) (now : Nat) (dbs : DBState) (feed_id : Nat)
    (title url : String) : DBState × Bool :=
  let item_hash := sha (hashInput feed_id url)
  if is_sent dbs item_hash then
    (dbs, false)
  else
    ({ dbs with sent_items :=
        dbs.sent_items ++ [{ item_hash := item_hash, feed_id := feed_id,
                             title := title, url := url, sent_at := now }] }, true)

/-- Embedding of `Database.clean_old_sent_items`: delete the rows with
`sent_at < cutoff` (the cutoff is `now - history_days` in the source). -/
def clean_old_sent_items (cutoff : Nat) (dbs : DBState) : DBState :=
  { dbs with sent_items := dbs.sent_items.filter (fun it => !(it.sent_at < cutoff)) }

/-- Embedding of `Config.is_admin_mode` (`config.py`): admin mode is on
when the configured admin id list is non-empty. -/
def is_admin_mode (admin_user_ids : List Int) : Bool :=
  admin_user_ids.length > 0

/-- Embedding of `Config.is_admin` (`config.py` lines 45-49): with admin
mode off every user passes; otherwise membership in the configured list
decides. -/
def is_admin (admin_user_ids : List Int) (user_id : Int) : Bool :=
  if !is_admin_mode admin_user_ids then true
  else admin_user_ids.contains user_id

/-- Embedding of one element of a feedparser entry's `links` list (keys
`type` and `href`, both possibly absent). -/
structure RawLink where
  ltype : Option String
  href : Option String
  deriving DecidableEq

/-- Embedding of one element of `entry.media_content` (keys `type`,
`url`). -/
structure MediaContent where
  mtype : Option String
  url : Option String
  deriving DecidableEq

/-- Embedding of one element of `entry.media_thumbnail` (key `url`). -/
structure MediaThumb where
  url : Option String
  deriving DecidableEq

/-- Embedding of one element of `entry.enclosures` (keys `type`,
`href`). -/
structure Enclosure where
  etype : Option String
  href : Option String
  deriving DecidableEq

/-- Embedding of one element of `entry.content` (attribute `value`). -/
structure RawContent where
  value : String
  deriving DecidableEq

/-- Embedding of one feedparser entry as consumed by
`RSSParser._parse_entry` / `_extract_image`: optional fields model both
`entry.get(key)` defaults and `hasattr` checks (an absent attribute is
`none`, an absent list attribute is `[]`). -/
structure RawEntry where
  title : Option String
  links : List RawLink
  link : Option String
  summary : Option String
  description : Option String
  published : Option String
  updated : Option String
  media_content : List MediaContent
  media_thumbnail : List MediaThumb
  enclosures : List Enclosure
  content : List RawContent
  deriving DecidableEq

/-- Embedding of the feedparser result consumed by
`RSSParser.fetch_feed` after the HTTP layer: the `bozo` malformedness
flag, the feed-level `title`/`description`/`link` fields, and the entry
list in document order. -/
structure RawFeed where
  bozo : Bool
  ftitle : Option String
  fdescription : Option String
  flink : Option String
  entries : List RawEntry
  deriving DecidableEq

/-- Embedding of the normalized entry dict built by
`RSSParser._parse_entry`.  Its keys are `title`, `link`, `summary`,
`published` and `image`; the structure also carries a `url` field
because `RSSChecker.check_entry` reads `entry.get("url", "")` — for a
dict coming out of the parser that key is absent (`none`). -/
structure EntryDict where
  title : Option String
  url : Option String
  link : Option String
  summary : Option String
  published : Option String
  image : Option String
  deriving DecidableEq

/-- Embedding of `RSSParser._extract_image` (`rss_parser.py` lines
129-155): first image-typed `media_content` url, else first
`media_thumbnail` url, else first image-typed enclosure href, else the
`src` of the first `img` tag of the first content block (`findImg`
abstracts the BeautifulSoup lookup), else none.  Note a hit on a list
element returns that element's (possibly absent) url immediately. -/
def extract_image (findImg : String → Option String) (e : RawEntry) : Option String :=
  match e.media_content.find? (fun m => pyStartsWith (m.mtype.getD "") "image/") with
  | some m => m.url
  | none =>
    match e.media_thumbnail.head? with
    | some t => t.url
    | none =>
      match e.enclosures.find? (fun en => pyStartsWith (en.etype.getD "") "image/") with
      | some en => en.href
      | none =>
        match e.content.head? with
        | some c => findImg c.value
        | none => none

/-- Embedding of `RSSParser._parse_entry` (`rss_parser.py` lines
67-120): a stripped-empty title discards the entry; the link prefers the
first `text/html`-typed link relation's href, else the generic `link`
field, else stays `""` (the entry is kept); the summary prefers
`summary` over `description`, is HTML-cleaned (`clean_html` abstracts
the BeautifulSoup text extraction) and capped at 500 code points;
`published` falls back to `updated`; the produced dict has no `url`
key. -/
def parse_entry (clean_html : String → String) (findImg : String → Option String)
    (e : RawEntry) : Option EntryDict :=
  let title := pyTrim (e.title.getD "Untitled")
  if title = "" then none
  else
    let link0 :=
      match e.links.find? (fun l => pyStartsWith (l.ltype.getD "") "text/html") with
      | some l => l.href.getD ""
      | none => ""
    let link := if link0 = "" then e.link.getD "" else link0
    let summary0 :=
      match e.summary with
      | some s => s
      | none =>
        match e.description with
        | some d => d
        | none => ""
    let summary := clean_html summary0
    let published :=
      match e.published with
      | some p => some p
      | none => e.updated
    some { title := some title, url := none, link := some link,
           summary := some (pyTake summary 500), published := published,
           image := extract_image findImg e }

/-- Embedding of the normalized feed dict built by
`RSSParser.fetch_feed` on success. -/
structure FeedInfo where
  title : String
  description : String
  link : String
  entries : List EntryDict
  deriving DecidableEq

/-- Result of `RSSParser.fetch_feed`, which returns
`(success, feed_data, error_message)`. -/
inductive FetchResult
  | success (info : FeedInfo)
  | failure (error : String)
  deriving DecidableEq

/-- Whether a fetch result is the success case. -/
def isSuccess : FetchResult → Bool
  | .success _ => true
  | .failure _ => false

/-- Entry list of a fetch result (empty on failure). -/
def fetchEntries : FetchResult → List EntryDict
  | .success info => info.entries
  | .failure _ => []

/-- Embedding of the parse phase of `RSSParser.fetch_feed`
(`rss_parser.py` lines 38-57), after the HTTP GET succeeded (timeouts
and HTTP status errors are earlier failure returns of the same method
and are outside this function's input domain): a bozo document with no
entries fails with "Invalid RSS feed format"; otherwise feed-level
fields get their dict defaults and the first 50 entries in document
order are normalized, dropping those `_parse_entry` rejects. -/
def fetch_feed (clean_html : String → String) (findImg : String → Option String)
    (raw : RawFeed) : FetchResult :=
  if raw.bozo && raw.entries.isEmpty then
    .failure "Invalid RSS feed format"
  else
    .success { title := raw.ftitle.getD "Unknown",
               description := raw.fdescription.getD "",
               link := raw.flink.getD "",
               entries := (raw.entries.take 50).filterMap (parse_entry clean_html findImg) }

/-- Record of one attempted Telegram delivery performed by
`RSSChecker.send_notification`: recipient chat id, rendered message
(caption when `as_photo`), and whether the transport call succeeded
(a failed call is caught and logged per recipient). -/
structure Delivery where
  chat_id : Int
  message : String
  as_photo : Bool
  ok : Bool
  deriving DecidableEq

/-- Embedding of `RSSChecker.send_notification` (`scheduler.py` lines
159-203): renders one message — header, bold entry title (dict default
"Untitled"), source line using `feed.title or 'Unknown'`, first 200
summary code points when the summary is non-empty, and up to 5 matched
keyword labels as hashtags with spaces replaced by underscores — then
attempts delivery to every configured admin (photo with caption when the
entry has an image, plain text otherwise). `deliveryOk` abstracts the
transport outcome per recipient; each failure is caught in its own
`except`, so the list of attempts is always the full admin list. -/
def send_notification (deliveryOk : Int → Bool) (admin_user_ids : List Int)
    (feed : Feed) (e : EntryDict) (matched_keywords : List String) : List Delivery :=
  let title := e.title.getD "Untitled"
  let summary := e.summary.getD ""
  let image := e.image
  let keywords_str :=
    pyJoin " " ((matched_keywords.take 5).map (fun kw => "#" ++ pyReplace kw " " "_"))
  let message := "🔔 <b>关键词匹配</b>\n\n" ++ "<b>" ++ title ++ "</b>\n\n"
      ++ "📰 来源: " ++ pyOrElse feed.title "Unknown" ++ "\n"
  let message := if summary ≠ "" then message ++ "\n" ++ pyTake summary 200 ++ "...\n"
      else message
  let message := message ++ "\n" ++ keywords_str
  admin_user_ids.map (fun aid =>
    { chat_id := aid, message := message, as_photo := image.isSome, ok := deliveryOk aid })

/-- Embedding of `RSSChecker.check_entry` (`scheduler.py` lines 91-122):
read `title`/`summary`/`url` from the entry dict (defaults `""`), bail
out on an empty url; bail out when the SHA-256 fingerprint of
`(feed.id, url)` is already recorded; otherwise collect the matching
active keywords and, when at least one matched, attempt the notification
and then record the fingerprint. Returns the updated store and the
delivery attempts. -/
def check_entry (sha : String → String) (rs : RegexSearch) (deliveryOk : Int → Bool)
    (admin_user_ids : List Int) (now : Nat) (dbs : DBState) (feed : Feed)
    (e : EntryDict) (keywords : List Keyword) : DBState × List Delivery :=
  let title := e.title.getD ""
  let summary := e.summary.getD ""
  let url := e.url.getD ""
  if url = "" then (dbs, [])
  else
    let item_hash := sha (hashInput feed.id url)
    if is_sent dbs item_hash then (dbs, [])
    else
      let matched_keywords := collectMatched rs title summary keywords
      if matched_keywords.isEmpty then (dbs, [])
      else
        let ds := send_notification deliveryOk admin_user_ids feed e matched_keywords
        ((mark_sent sha now dbs feed.id title url).1, ds)

/-- Observable state threaded through one sweep: the store, the list of
feed urls handed to `parser.fetch_feed` (in call order), and the
delivery attempts (in send order). -/
structure SweepState where
  db : DBState
  fetch_log : List String
  deliveries : List Delivery
  deriving DecidableEq

/-- Embedding of `RSSChecker.check_feed` (`scheduler.py` lines 54-89):
merge global and feed-specific keywords (skip the feed when that union
is empty, without fetching); fetch (`fetcher` abstracts
`parser.fetch_feed`, whose own `try/except` makes it total); on failure
increment the feed's error count; on success write
title/description/last_fetch/error_count and run `check_entry` over the
entries in document order. The method's outer `try/except` also routes
any raised error to `increment_error`; in this embedding no embedded
step raises. -/
def check_feed (sha : String → String) (rs : RegexSearch) (deliveryOk : Int → Bool)
    (admin_user_ids : List Int) (fetcher : String → FetchResult) (now : Nat)
    (s : SweepState) (feed : Feed) (global_keywords : List Keyword) : SweepState :=
  let feed_keywords := get_feed_keywords s.db feed.id
  let all_keywords := global_keywords ++ feed_keywords
  if all_keywords.isEmpty then s
  else
    let s := { s with fetch_log := s.fetch_log ++ [feed.url] }
    match fetcher feed.url with
    | .failure _ => { s with db := increment_error_db s.db feed.id }
    | .success feed_data =>
      let s := { s with db := update_feed_success s.db feed.id feed_data.title
                          feed_data.description now }
      feed_data.entries.foldl (fun acc e =>
        let r := check_entry sha rs deliveryOk admin_user_ids now acc.db feed e all_keywords
        { acc with db := r.1, deliveries := acc.deliveries ++ r.2 }) s

/-- Checker state: the `is_running` sweep-in-progress guard of
`RSSChecker` plus the observable sweep state. -/
structure BotState where
  is_running : Bool
  db : DBState
  fetch_log : List String
  deliveries : List Delivery
  deriving DecidableEq

/-- Guard structure of `RSSChecker.check_all_feeds` (`scheduler.py`
lines 31-52) over an arbitrary body: a trigger arriving while
`is_running` is set returns immediately with nothing done; otherwise the
guard is set, the body runs under `try`, and the `finally` block clears
the guard and purges old dedup rows whatever the body did (so also when
it raised — the abstract `body` stands for the state as of the
interruption point in that case). -/
def run_sweep_guarded (cutoff : Nat) (body : SweepState → SweepState)
    (bs : BotState) : BotState :=
  if bs.is_running then bs
  else
    let s := body { db := bs.db, fetch_log := bs.fetch_log, deliveries := bs.deliveries }
    { is_running := false, db := clean_old_sent_items cutoff s.db,
      fetch_log := s.fetch_log, deliveries := s.deliveries }

/-- Body of one sweep: snapshot the active feeds and the global keywords
from the store, then run `check_feed` over the snapshot in order (each
`check_feed` re-reads the feed-specific keywords from the current
store, as each Python call opens a fresh session). -/
def sweep_body (sha : String → String) (rs : RegexSearch) (deliveryOk : Int → Bool)
    (admin_user_ids : List Int) (fetcher : String → FetchResult) (now : Nat)
    (s : SweepState) : SweepState :=
  let feeds := get_active_feeds s.db
  let global_keywords := get_global_keywords s.db
  feeds.foldl (fun acc f =>
    check_feed sha rs deliveryOk admin_user_ids fetcher now acc f global_keywords) s

/-- Embedding of `RSSChecker.check_all_feeds`: the guarded sweep with
the real body. -/
def check_all_feeds (sha : String → String) (rs : RegexSearch) (deliveryOk : Int → Bool)
    (admin_user_ids : List Int) (fetcher : String → FetchResult) (now cutoff : Nat)
    (bs : BotState) : BotState :=
  run_sweep_guarded cutoff (sweep_body sha rs deliveryOk admin_user_ids fetcher now) bs

/-- Helper for `splitOnFirst`: locate the first occurrence of the
separator and return the parts before and after it. -/
def splitFirstAux (sep : List Char) : List Char → Option (List Char × List Char)
  | [] => none
  | h :: t =>
    if sep.isPrefixOf (h :: t) then some ([], (h :: t).drop sep.length)
    else
      match splitFirstAux sep t with
      | some p => some (h :: p.1, p.2)
      | none => none

/-- Splits a string on the first occurrence of `sep` only (none when
`sep` does not occur). Used to state claim C4's reading of the `not`
matcher. -/
def splitOnFirst (s sep : String) : Option (String × String) :=
  (splitFirstAux sep.toList s.toList).map (fun p => (String.mk p.1, String.mk p.2))

/-- Claim C4's reading of the `not` matcher, stated from the claim's
words for refinement comparison with `matchKeyword`: split the pattern
on the FIRST occurrence of " -"; when that yields two non-empty parts,
match iff the main part is contained and the excluded part is not
(parts trimmed and lowercased as in the source); otherwise fall back to
plain containment of the whole pattern. -/
def matchNotClaimed (title summary pattern : String) : Bool :=
  let text := pyLower (title ++ " " ++ summary)
  match splitOnFirst pattern " -" with
  | some p =>
    if p.1 ≠ "" ∧ p.2 ≠ "" then
      strContains text (pyLower (pyTrim p.1)) && !(strContains text (pyLower (pyTrim p.2)))
    else strContains text (pyLower pattern)
  | none => strContains text (pyLower pattern)

/-- The amended C4 matcher: split the pattern on EVERY occurrence of
" -"; an exactly-two-chunk split (chunks may be empty) takes the
main/exclude path on the trimmed lowercased chunks; any other chunk
count falls back to plain containment of the whole lowercased
pattern. -/
def matchNotAmended (title summary pattern : String) : Bool :=
  let text := pyLower (title ++ " " ++ summary)
  match pySplit pattern " -" with
  | [a, b] =>
    strContains text (pyLower (pyTrim a)) && !(strContains text (pyLower (pyTrim b)))
  | _ => strContains text (pyLower pattern)

/-- Concrete stand-in for the SHA-256 hex digest in closed evaluations. -/
def shaTag : String → String := fun s => "sha-" ++ s

/-- Regex collaborator that fails on every input (models an engine that
raises, e.g. on an unclosed group). -/
def rsNone : RegexSearch := fun _ _ => .error

-- Concrete scenario of claim C1: one active feed, one active global
-- "release" rule, one fresh fetched entry titled "New Release v2" with
-- URL u1, one configured recipient.
def c1Feed : Feed :=
  { id := 1, url := "http://feed.example/rss", title := some "Feed", description := none,
    is_active := true, error_count := 0, last_fetch := none }

def c1Kw : Keyword :=
  { feed_id := none, keyword := "release", keyword_type := "normal", is_active := true }

def c1RawEntry : RawEntry :=
  { title := some "New Release v2", links := [], link := some "u1", summary := none,
    description := none, published := none, updated := none, media_content := [],
    media_thumbnail := [], enclosures := [], content := [] }

def c1Raw : RawFeed :=
  { bozo := false, ftitle := some "Feed", fdescription := some "", flink := some "",
    entries := [c1RawEntry] }

def c1Bot : BotState :=
  { is_running := false, db := { feeds := [c1Feed], keywords := [c1Kw], sent_items := [] },
    fetch_log := [], deliveries := [] }

def c1Fetcher : String → FetchResult :=
  fun _ => fetch_feed (fun s => s) (fun _ => none) c1Raw

/-- The claim-C1 entry as `check_entry` would need it (with the "url"
key populated), to exhibit what the pipeline does once the key mismatch
is repaired. -/
def c1EntryFixed : EntryDict :=
  { title := some "New Release v2", url := some "u1", link := some "u1",
    summary := some "", published := none, image := none }

-- Concrete inputs of claim C3's witness.
def c3Fresh : Feed :=
  { id := 2, url := "http://c3.example/rss", title := none, description := none,
    is_active := true, error_count := 0, last_fetch := none }

def c3Inactive : Feed :=
  { id := 3, url := "http://c3b.example/rss", title := none, description := none,
    is_active := false, error_count := 10, last_fetch := none }

-- Concrete inputs of claim C4's counterexample and witness.
def c4Kw : Keyword :=
  { feed_id := none, keyword := "x -y -z", keyword_type := "not", is_active := true }

-- Concrete inputs of claim C5's witness: a malformed regex rule
-- followed by a valid plain rule.
def c5Bad : Keyword :=
  { feed_id := none, keyword := "(unclosed", keyword_type := "regex", is_active := true }

def c5Good : Keyword :=
  { feed_id := none, keyword := "python", keyword_type := "normal", is_active := true }

-- Concrete inputs of claim C6's witness.
def c6Feed : Feed :=
  { id := 4, url := "http://c6.example/rss", title := some "C6", description := none,
    is_active := true, error_count := 0, last_fetch := none }

def c6Kw : Keyword :=
  { feed_id := none, keyword := "release", keyword_type := "normal", is_active := true }

def c6Entry : EntryDict :=
  { title := some "Release day", url := some "u6", link := some "u6",
    summary := some "", published := none, image := none }

def c6Db : DBState := { feeds := [c6Feed], keywords := [c6Kw], sent_items := [] }

-- Concrete inputs of claim C7's witness.
def c7Db : DBState := { feeds := [], keywords := [], sent_items := [] }

def c7Feed : Feed :=
  { id := 5, url := "http://c7.example/rss", title := some "C7", description := none,
    is_active := true, error_count := 0, last_fetch := none }

def c7Entry : EntryDict :=
  { title := some "Seen already", url := some "u7", link := some "u7",
    summary := some "", published := none, image := none }

def c7DbSent : DBState :=
  { feeds := [c7Feed], keywords := [],
    sent_items := [{ item_hash := shaTag (hashInput 5 "u7"), feed_id := 5,
                     title := "Seen already", url := "u7", sent_at := 0 }] }

-- Concrete inputs of claim C8's counterexample and witness: a raw entry
-- with a title but no link information at all.
def c8RawEntry : RawEntry :=
  { title := some "t", links := [], link := none, summary := none, description := none,
    published := none, updated := none, media_content := [], media_thumbnail := [],
    enclosures := [], content := [] }

def c8Raw : RawFeed :=
  { bozo := false, ftitle := some "F", fdescription := none, flink := none,
    entries := [c8RawEntry] }

/-- The normalized result of fetching `c8Raw`: the link-less entry is
kept with an empty link string. -/
def c8Info : FeedInfo :=
  { title := "F", description := "", link := "",
    entries := [{ title := some "t", url := none, link := some "", summary := some "",
                  published := none, image := none }] }

-- Concrete inputs of claim C9's witness.
def c9Busy : BotState :=
  { is_running := true, db := { feeds := [], keywords := [], sent_items := [] },
    fetch_log := [], deliveries := [] }

def c9Idle : BotState :=
  { is_running := false, db := { feeds := [], keywords := [], sent_items := [] },
    fetch_log := [], deliveries := [] }

/-- Claim C1 (code bug): for a feed with the active global rule
"release" whose fetch yields one new normalized entry titled
"New Release v2" with URL u1, the claim expects one sweep to produce
exactly one notification containing "#release" and one dedup record for
the fingerprint of (feedId, u1).  The code disagrees: `_parse_entry`
stores the entry URL under the dict key "link", while `check_entry`
reads `entry.get("url", "")`, so every parsed entry fails the URL guard
and the sweep produces zero notifications and zero dedup records.  The
last two conjuncts show that the very same pipeline applied to the same
entry with the "url" key populated produces exactly one notification
containing "#release" and exactly one dedup record with the fingerprint
of (1, u1) — the claimed behavior, demonstrating the key mismatch is the
sole obstruction. -/
theorem C1_sweep_never_notifies :
    (check_all_feeds shaTag rsNone (fun _ => true) [99] c1Fetcher 5 0 c1Bot).deliveries = []
    ∧ (check_all_feeds shaTag rsNone (fun _ => true) [99] c1Fetcher 5 0 c1Bot).db.sent_items = []
    ∧ (fetchEntries (c1Fetcher "http://feed.example/rss")).map EntryDict.link = [some "u1"]
    ∧ (fetchEntries (c1Fetcher "http://feed.example/rss")).map EntryDict.url = [none]
    ∧ ((check_entry shaTag rsNone (fun _ => true) [99] 5 c1Bot.db c1Feed c1EntryFixed
         [c1Kw]).2.map (fun d => strContains d.message "#release")) = [true]
    ∧ ((check_entry shaTag rsNone (fun _ => true) [99] 5 c1Bot.db c1Feed c1EntryFixed
         [c1Kw]).1.sent_items.map SentItem.item_hash) = [shaTag (hashInput 1 "u1")] := by
  decide

/-- Claim C2 (code bug): the claim says an input with the 6-character
"regex:" marker stores exactly the remainder after those 6 characters.
The code slices `keyword[7:]`, dropping one extra character: on the
input "regex:abc" the derived kind is regex but the stored pattern is
"bc", not the remainder "abc" (the bot's own /help example
`regex:^\d+$` would lose its anchor the same way). -/
theorem C2_regex_remainder_off_by_one :
    (add_keyword "regex:abc" none "normal").keyword_type = "regex"
    ∧ (add_keyword "regex:abc" none "normal").keyword = "bc"
    ∧ (add_keyword "regex:abc" none "normal").keyword ≠ "abc" := by
  decide

/-- Claim C9 (confirmed): at most one sweep runs at a time — a trigger
arriving while `is_running` is set returns the state unchanged (no
fetch, no delivery, no store change), for the real sweep body and for
ANY body (covering a body interrupted by an exception, whose effects up
to the interruption point are an arbitrary state transform); and a
trigger that does run always ends with the guard cleared, again for any
body, because the clearing sits in the `finally` block. -/
theorem C9_sweep_guard (cutoff : Nat) (body : SweepState → SweepState) (bs : BotState)
    (sha : String → String) (rs : RegexSearch) (deliveryOk : Int → Bool)
    (admin_user_ids : List Int) (fetcher : String → FetchResult) (now : Nat) :
    (bs.is_running = true → run_sweep_guarded cutoff body bs = bs)
    ∧ (bs.is_running = false → (run_sweep_guarded cutoff body bs).is_running = false)
    ∧ (bs.is_running = true →
        check_all_feeds sha rs deliveryOk admin_user_ids fetcher now cutoff bs = bs)
    ∧ (bs.is_running = false →
        (check_all_feeds sha rs deliveryOk admin_user_ids fetcher now cutoff bs).is_running
          = false) := by
  refine ⟨fun h => ?_, fun h => ?_, fun h => ?_, fun h => ?_⟩ <;>
    simp [check_all_feeds, run_sweep_guarded, h]

/-- Witness for C9: the guard drops a trigger on a busy checker and is
clear after a sweep on an idle checker. -/
theorem C9_sweep_guard_witness :
    (run_sweep_guarded 0 id c9Busy = c9Busy)
    ∧ (run_sweep_guarded 0 id c9Idle).is_running = false
    ∧ (check_all_feeds shaTag rsNone (fun _ => true) [99] (fun _ => .failure "x") 5 0
        c9Busy = c9Busy)
    ∧ (check_all_feeds shaTag rsNone (fun _ => true) [99] (fun _ => .failure "x") 5 0
        c9Idle).is_running = false := by
  have hb := C9_sweep_guard 0 id c9Busy shaTag rsNone (fun _ => true) [99]
    (fun _ => .failure "x") 5
  have hi := C9_sweep_guard 0 id c9Idle shaTag rsNone (fun _ => true) [99]
    (fun _ => .failure "x") 5
  exact ⟨hb.1 rfl, hi.2.1 rfl, hb.2.2.1 rfl, hi.2.2.2 rfl⟩

/-- Claim C10 (confirmed): with an empty configured admin list,
`is_admin` accepts every user id; with a non-empty list it accepts
exactly the ids in the list. -/
theorem C10_admin_check (admin_user_ids : List Int) (user_id : Int) :
    (admin_user_ids = [] → is_admin admin_user_ids user_id = true)
    ∧ (admin_user_ids ≠ [] →
        (is_admin admin_user_ids user_id = true ↔ user_id ∈ admin_user_ids)) := by
  constructor
  · intro h
    subst h
    rfl
  · intro h
    have hlen : 0 < admin_user_ids.length := List.length_pos.mpr h
    simp [is_admin, is_admin_mode, hlen]

/-- Witness for C10: every user passes on an empty list; on the list
[5, 6] user 5 passes and membership decides. -/
theorem C10_admin_check_witness :
    is_admin [] 42 = true
    ∧ (is_admin [5, 6] 5 = true ↔ (5 : Int) ∈ [(5 : Int), 6]) := by
  exact ⟨(C10_admin_check [] 42).1 rfl, (C10_admin_check [5, 6] 5).2 (by decide)⟩

/-- One failure adds exactly one to the error count. -/
theorem increment_error_count (f : Feed) :
    (increment_error f).error_count = f.error_count + 1 := rfl

/-- Error count after k consecutive failures. -/
theorem iterate_increment_count (k : Nat) (f : Feed) :
    (increment_error^[k] f).error_count = f.error_count + k := by
  induction k generalizing f with
  | zero => simp
  | succ n ih =>
    rw [Function.iterate_succ_apply, ih, increment_error_count]
    omega

/-- While the running count stays at most 9, failures keep a live feed
live. -/
theorem iterate_increment_active (k : Nat) (f : Feed) (hact : f.is_active = true)
    (hle : f.error_count + k ≤ 9) : (increment_error^[k] f).is_active = true := by
  induction k generalizing f with
  | zero => simpa
  | succ n ih =>
    rw [Function.iterate_succ_apply]
    refine ih (increment_error f) ?_ ?_
    · have h10 : ¬ f.error_count + 1 ≥ 10 := by omega
      simp [increment_error, h10, hact]
    · rw [increment_error_count]
      omega

/-- Neither core feed mutation reactivates a disabled feed. -/
theorem core_op_keeps_inactive (f : Feed) (op : CoreOp) (h : f.is_active = false) :
    (apply_core_op f op).is_active = false := by
  cases op with
  | fail =>
    simp only [apply_core_op, increment_error]
    split <;> simp [h]
  | succeed t d n => simpa [apply_core_op, apply_success]

/-- No sequence of core feed mutations reactivates a disabled feed. -/
theorem core_ops_keep_inactive (ops : List CoreOp) (f : Feed) (h : f.is_active = false) :
    (ops.foldl apply_core_op f).is_active = false := by
  induction ops generalizing f with
  | nil => simpa
  | cons op rest ih => exact ih (apply_core_op f op) (core_op_keeps_inactive f op h)

/-- Claim C3 (confirmed): each fetch failure adds exactly 1 to
`error_count`; a failure that lifts the count to 10 or beyond clears
`is_active`, and no sequence of core operations (further failures or
successes) ever sets it back; from a fresh live feed, 9 consecutive
failures leave it live and the 10th disables it; a fetch success writes
`error_count = 0` unconditionally and leaves `is_active` exactly as it
was. -/
theorem C3_error_count_policy (f : Feed) (ops : List CoreOp) (t d : String) (n : Nat) :
    ((increment_error f).error_count = f.error_count + 1)
    ∧ (f.error_count + 1 ≥ 10 → (increment_error f).is_active = false)
    ∧ (f.is_active = false → (ops.foldl apply_core_op f).is_active = false)
    ∧ (f.error_count = 0 → f.is_active = true →
        (increment_error^[9] f).is_active = true
        ∧ (increment_error^[10] f).is_active = false)
    ∧ ((apply_success f t d n).error_count = 0
        ∧ (apply_success f t d n).is_active = f.is_active) := by
  refine ⟨increment_error_count f, fun h10 => ?_, core_ops_keep_inactive ops f, ?_, rfl, rfl⟩
  · simp [increment_error, h10]
  · intro hc hact
    refine ⟨iterate_increment_active 9 f hact (by omega), ?_⟩
    rw [show (10 : Nat) = 9 + 1 from rfl, Function.iterate_succ_apply']
    have h9 : (increment_error^[9] f).error_count = 9 := by
      rw [iterate_increment_count, hc]
    simp [increment_error, h9]

/-- Witness for C3 on a fresh feed and a disabled feed with a mixed
operation sequence. -/
theorem C3_error_count_policy_witness :
    ((increment_error c3Fresh).error_count = c3Fresh.error_count + 1)
    ∧ ((increment_error^[9] c3Fresh).is_active = true
        ∧ (increment_error^[10] c3Fresh).is_active = false)
    ∧ (([CoreOp.succeed "t" "d" 1, CoreOp.fail].foldl apply_core_op c3Inactive).is_active
        = false)
    ∧ ((apply_success c3Fresh "t" "d" 1).error_count = 0
        ∧ (apply_success c3Fresh "t" "d" 1).is_active = c3Fresh.is_active) := by
  have hf := C3_error_count_policy c3Fresh [CoreOp.succeed "t" "d" 1, CoreOp.fail] "t" "d" 1
  have hi := C3_error_count_policy c3Inactive [CoreOp.succeed "t" "d" 1, CoreOp.fail] "t" "d" 1
  exact ⟨hf.1, hf.2.2.2.1 rfl rfl, hi.2.2.1 rfl, hf.2.2.2.2⟩

/-- Counterexample to claim C4: on the kind=not rule "x -y -z" and the
text "x", splitting on the FIRST occurrence of " -" (as the claim says)
gives the non-empty parts "x" and "y -z", so the claim predicts a match
("x" contained, "y -z" not contained); the code splits on EVERY
occurrence, gets three parts, falls back to plain containment of the
whole pattern and returns false. -/
theorem C4_counterexample :
    matchKeyword rsNone "x" "" c4Kw = false
    ∧ matchNotClaimed "x" "" "x -y -z" = true := by
  decide

/-- Claim C4 as amended (proved): for a kind=not rule the matcher splits
the pattern on EVERY occurrence of " -"; when that yields exactly two
chunks (which may be empty), it returns true iff the first chunk
(trimmed, lowercased) is contained in the lowercased text and the second
is not; with any other chunk count it falls back to plain containment of
the whole lowercased pattern. -/
theorem C4_not_matcher_amended (rs : RegexSearch) (title summary : String) (kw : Keyword)
    (h : kw.keyword_type = "not") :
    matchKeyword rs title summary kw = matchNotAmended title summary kw.keyword := by
  rcases hp : pySplit kw.keyword " -" with _ | ⟨a, _ | ⟨b, _ | ⟨c, tl⟩⟩⟩
  · simp [matchKeyword, matchNotAmended, h, hp]
  · simp [matchKeyword, matchNotAmended, h, hp]
  · simp [matchKeyword, matchNotAmended, h, hp]
  · have hlen : (pySplit kw.keyword " -").length ≠ 2 := by
      rw [hp]
      simp
    simp [matchKeyword, matchNotAmended, h, hp, hlen]

/-- Witness for the amended C4 on the counterexample rule. -/
theorem C4_not_matcher_amended_witness :
    matchKeyword rsNone "x" "" c4Kw = matchNotAmended "x" "" c4Kw.keyword :=
  C4_not_matcher_amended rsNone "x" "" c4Kw rfl

/-- Claim C5 (confirmed): when the regex engine fails on a kind=regex
rule (compile or evaluation error, caught by the matcher's try/except),
the rule is a non-match, and the rule loop of `check_entry` run on a
list starting with that rule collects exactly what it collects on the
remaining rules — a subsequent valid rule still runs and can match. -/
theorem C5_bad_regex_degrades (rs : RegexSearch) (title summary : String)
    (kw : Keyword) (rest : List Keyword)
    (hk : kw.keyword_type = "regex")
    (herr : rs kw.keyword (pyLower (title ++ " " ++ summary)) = .error) :
    matchKeyword rs title summary kw = false
    ∧ collectMatched rs title summary (kw :: rest) = collectMatched rs title summary rest := by
  have hm : matchKeyword rs title summary kw = false := by
    simp [matchKeyword, hk, herr]
  refine ⟨hm, ?_⟩
  cases ha : kw.is_active <;> simp [collectMatched, ha, hm]

/-- Witness for C5: the malformed rule "(unclosed" with an engine that
raises is a non-match and leaves the loop result over a following valid
"python" rule unchanged (which on the text "python tutorial" is the
singleton match ["python"]). -/
theorem C5_bad_regex_degrades_witness :
    (matchKeyword rsNone "python tutorial" "" c5Bad = false
      ∧ collectMatched rsNone "python tutorial" "" [c5Bad, c5Good]
          = collectMatched rsNone "python tutorial" "" [c5Good])
    ∧ collectMatched rsNone "python tutorial" "" [c5Good] = ["python"] :=
  ⟨C5_bad_regex_degrades rsNone "python tutorial" "" c5Bad [c5Good] rfl rfl, by decide⟩

/-- A fingerprint has no dedup row exactly when `is_sent` denies it. -/
theorem sentCount_zero_iff (dbs : DBState) (h : String) :
    sentCount dbs h = 0 ↔ is_sent dbs h = false := by
  unfold sentCount is_sent
  induction dbs.sent_items with
  | nil => simp
  | cons it rest ih =>
    by_cases hx : it.item_hash = h <;> simp [hx, ih]

/-- After `mark_sent`, the fingerprint of the marked pair is recorded
(whether the insert was fresh or rejected by the unique index). -/
theorem is_sent_mark_sent (sha : String → String) (now : Nat) (dbs : DBState)
    (fid : Nat) (t u : String) :
    is_sent (mark_sent sha now dbs fid t u).1 (sha (hashInput fid u)) = true := by
  unfold mark_sent
  cases hs : is_sent dbs (sha (hashInput fid u)) with
  | true => simp [hs]
  | false =>
    simp only [hs]
    simp [is_sent, List.any_append]

/-- A `mark_sent` whose fingerprint is already recorded changes
nothing (the unique index rejects the row). -/
theorem mark_sent_dup (sha : String → String) (now : Nat) (dbs : DBState)
    (fid : Nat) (t u : String)
    (hs : is_sent dbs (sha (hashInput fid u)) = true) :
    (mark_sent sha now dbs fid t u).1 = dbs := by
  unfold mark_sent
  simp [hs]

/-- A fresh `mark_sent` adds exactly one row with the marked
fingerprint. -/
theorem sentCount_mark_sent_fresh (sha : String → String) (now : Nat) (dbs : DBState)
    (fid : Nat) (t u : String)
    (hs : is_sent dbs (sha (hashInput fid u)) = false) :
    sentCount (mark_sent sha now dbs fid t u).1 (sha (hashInput fid u))
      = sentCount dbs (sha (hashInput fid u)) + 1 := by
  unfold mark_sent
  simp [hs, sentCount, List.filter_append]

/-- Claim C6 (confirmed): when at least one rule matches a fresh entry
with a URL, `check_entry` records the entry's fingerprint, and the
resulting store is the same whatever the per-recipient delivery
outcomes are — in particular it is recorded even when delivery to every
recipient fails, and nothing in the engine ever retries a failed
delivery (the store the next sweep consults already lists the item). -/
theorem C6_marked_sent_regardless_of_delivery (sha : String → String) (rs : RegexSearch)
    (dOk dOk2 : Int → Bool) (admins : List Int) (now : Nat) (dbs : DBState)
    (feed : Feed) (e : EntryDict) (kws : List Keyword)
    (hurl : e.url.getD "" ≠ "")
    (hsent : is_sent dbs (sha (hashInput feed.id (e.url.getD ""))) = false)
    (hmatch : collectMatched rs (e.title.getD "") (e.summary.getD "") kws ≠ []) :
    is_sent (check_entry sha rs dOk admins now dbs feed e kws).1
        (sha (hashInput feed.id (e.url.getD ""))) = true
    ∧ (check_entry sha rs dOk admins now dbs feed e kws).1
        = (check_entry sha rs dOk2 admins now dbs feed e kws).1 := by
  have hre : ∀ dk : Int → Bool, (check_entry sha rs dk admins now dbs feed e kws).1
      = (mark_sent sha now dbs feed.id (e.title.getD "") (e.url.getD "")).1 := by
    intro dk
    unfold check_entry
    simp [hurl, hsent, hmatch]
  rw [hre dOk, hre dOk2]
  exact ⟨is_sent_mark_sent sha now dbs feed.id (e.title.getD "") (e.url.getD ""), rfl⟩

/-- Witness for C6: the matching entry u6 gets its fingerprint recorded
even when delivery to the only recipient fails, and the store equals the
one produced under successful delivery. -/
theorem C6_marked_sent_regardless_of_delivery_witness :
    is_sent (check_entry shaTag rsNone (fun _ => false) [99] 5 c6Db c6Feed c6Entry
        [c6Kw]).1 (shaTag (hashInput c6Feed.id (c6Entry.url.getD ""))) = true
    ∧ (check_entry shaTag rsNone (fun _ => false) [99] 5 c6Db c6Feed c6Entry [c6Kw]).1
        = (check_entry shaTag rsNone (fun _ => true) [99] 5 c6Db c6Feed c6Entry [c6Kw]).1 :=
  C6_marked_sent_regardless_of_delivery shaTag rsNone (fun _ => false) (fun _ => true)
    [99] 5 c6Db c6Feed c6Entry [c6Kw] (by decide) (by decide) (by decide)

/-- Claim C7 (confirmed): marking the same (feedId, url) twice leaves
exactly one dedup row carrying that fingerprint (the unique index
rejects the second insert), and `check_entry` on an entry whose
fingerprint is already recorded returns the store unchanged with no
delivery attempts. -/
theorem C7_dedup_idempotent (sha : String → String) (rs : RegexSearch)
    (dOk : Int → Bool) (admins : List Int) (now now2 : Nat) (dbs dbs2 : DBState)
    (fid : Nat) (t1 t2 u : String) (feed : Feed) (e : EntryDict) (kws : List Keyword)
    (h0 : sentCount dbs (sha (hashInput fid u)) = 0) :
    sentCount (mark_sent sha now2 (mark_sent sha now dbs fid t1 u).1 fid t2 u).1
        (sha (hashInput fid u)) = 1
    ∧ (is_sent dbs2 (sha (hashInput feed.id (e.url.getD ""))) = true →
        check_entry sha rs dOk admins now dbs2 feed e kws = (dbs2, [])) := by
  constructor
  · have hs0 : is_sent dbs (sha (hashInput fid u)) = false := (sentCount_zero_iff dbs _).mp h0
    rw [mark_sent_dup sha now2 _ fid t2 u (is_sent_mark_sent sha now dbs fid t1 u),
        sentCount_mark_sent_fresh sha now dbs fid t1 u hs0, h0]
  · intro hs
    unfold check_entry
    by_cases hu : e.url.getD "" = ""
    · simp [hu]
    · simp [hu, hs]

/-- Witness for C7: double-marking (5, u7) in an empty store leaves one
row, and re-checking the already-recorded entry u7 changes nothing and
delivers nothing. -/
theorem C7_dedup_idempotent_witness :
    sentCount (mark_sent shaTag 1 (mark_sent shaTag 0 c7Db 5 "t1" "u7").1 5 "t2" "u7").1
        (shaTag (hashInput 5 "u7")) = 1
    ∧ (is_sent c7DbSent (shaTag (hashInput c7Feed.id (c7Entry.url.getD ""))) = true →
        check_entry shaTag rsNone (fun _ => true) [99] 0 c7DbSent c7Feed c7Entry []
          = (c7DbSent, [])) :=
  C7_dedup_idempotent shaTag rsNone (fun _ => true) [99] 0 1 c7Db c7DbSent 5 "t1" "t2"
    "u7" c7Feed c7Entry [] (by decide)

/-- Counterexample to claim C8: fetching a well-formed feed whose single
entry has a title but neither an HTML-typed link relation nor a generic
link field SUCCEEDS and KEEPS that entry, with an empty link string —
the entry is not discarded as the claim states. -/
theorem C8_counterexample :
    isSuccess (fetch_feed (fun s => s) (fun _ => none) c8Raw) = true
    ∧ (fetchEntries (fetch_feed (fun s => s) (fun _ => none) c8Raw)).map EntryDict.link
        = [some ""] := by
  decide

/-- An entry `_parse_entry` keeps always carries a non-empty title. -/
theorem parse_entry_title_nonempty (ch : String → String) (fi : String → Option String)
    (a : RawEntry) (e : EntryDict) (hpe : parse_entry ch fi a = some e) :
    e.title.getD "" ≠ "" := by
  unfold parse_entry at hpe
  by_cases ht : pyTrim (a.title.getD "Untitled") = ""
  · simp [ht] at hpe
  · simp [ht] at hpe
    subst hpe
    simpa using ht

/-- The entry is discarded exactly when its title is empty after
trimming (in particular, missing link information never discards it). -/
theorem parse_entry_none_iff (ch : String → String) (fi : String → Option String)
    (a : RawEntry) :
    parse_entry ch fi a = none ↔ pyTrim (a.title.getD "Untitled") = "" := by
  unfold parse_entry
  by_cases ht : pyTrim (a.title.getD "Untitled") = "" <;> simp [ht]

/-- Claim C8 as amended (proved): a successful fetch result has at most
50 entries, taken from the first 50 raw entries in document order; every
kept entry has a non-empty title; and an entry is discarded exactly when
its title is empty after trimming — an entry with no link information is
kept, with an empty link string (shown concretely by the
counterexample). -/
theorem C8_fetch_normalization_amended (ch : String → String)
    (fi : String → Option String) (raw : RawFeed) (info : FeedInfo)
    (hf : fetch_feed ch fi raw = .success info) :
    info.entries.length ≤ 50
    ∧ (∀ e ∈ info.entries, e.title.getD "" ≠ "")
    ∧ (∀ a, parse_entry ch fi a = none ↔ pyTrim (a.title.getD "Untitled") = "") := by
  unfold fetch_feed at hf
  by_cases hb : raw.bozo && raw.entries.isEmpty
  · simp [hb] at hf
  · rw [if_neg (by simpa using hb)] at hf
    injection hf with hinfo
    refine ⟨?_, ?_, fun a => parse_entry_none_iff ch fi a⟩
    · rw [← hinfo]
      exact le_trans (List.length_filterMap_le _ _) (List.length_take_le 50 raw.entries)
    · intro e he
      rw [← hinfo] at he
      obtain ⟨a, _, hpe⟩ := List.mem_filterMap.mp he
      exact parse_entry_title_nonempty ch fi a e hpe

/-- Witness for the amended C8 on the link-less concrete feed. -/
theorem C8_fetch_normalization_amended_witness :
    c8Info.entries.length ≤ 50
    ∧ (∀ e ∈ c8Info.entries, e.title.getD "" ≠ "")
    ∧ (∀ a, parse_entry (fun s => s) (fun _ => none) a = none
        ↔ pyTrim (a.title.getD "Untitled") = "") :=
  C8_fetch_normalization_amended (fun s => s) (fun _ => none) c8Raw c8Info (by decide)
